import Mathlib

/-!
Shallow embedding of `src/locustfile.py`, a Locust load-test script for the
swiftarr server.  Each Locust user class becomes a namespace holding:

* a `State` structure mirroring the instance attributes the class declares
  (class-level defaults are given by a `dflt` constant);
* an `on_start` function mirroring the bootstrap method.  Bootstrap is
  modelled on its success path: values the Python code extracts from HTTP
  responses (tokens, user IDs, ID lists, `set-cookie` headers) are taken as
  parameters, and `on_start` returns the resulting instance state together
  with the list of HTTP requests it issues, in source order;
* one function per `@task` method, taking the instance state and an `Ext`
  structure bundling the externally supplied values the task consumes
  (response-extracted IDs, random indices for `random.choice`, response
  fields inspected by conditionals), and returning an `ActionResult`: the
  HTTP requests issued, in order, plus an optional Python exception
  (`random.choice` on an empty sequence raises `IndexError`; `next()` on an
  exhausted generator raises `StopIteration` — both stop the task before
  any further request is issued);
* an `Act` enumeration of the class's tasks and a `run` dispatcher.

Request URLs are kept as lists of segments so that the distinction between
literal text and an interpolated variable identifier (Python string
concatenation with `str(...)` of a response-derived or cached ID) is
preserved; `renderPath` recovers the concrete URL string.  Request bodies
are elided except for the `initialUsers` participant list of group-create
calls, which the round-trip claims need.  The `label` field holds the
`name=` metrics label passed to the Locust client, when present.
-/

inductive Method
  | GET
  | POST
  | DELETE
deriving DecidableEq

/-- One segment of a URL as built by Python string concatenation: either a
string literal from the source, or an interpolated variable identifier. -/
inductive Seg
  | lit (s : String)
  | var (s : String)
deriving DecidableEq

/-- Credential material carried by a login request: a JSON
username/password body (`POST /login`) or HTTP basic auth
(`auth=(user, password)`). -/
inductive Login
  | jsonBody (u pw : String)
  | basic (u pw : String)
deriving DecidableEq

/-- One HTTP request issued through the Locust client.  `label` is the
`name=` metrics label when the source supplies one; `authHeader` is the
value of the `Authorization` header dictionary attached via `headers=`;
`login` is the credential material for login requests; `participants` is
the `initialUsers` list of a group-create JSON body (other body content is
elided). -/
structure Request where
  method : Method
  path : List Seg
  label : Option String
  authHeader : Option String
  login : Option Login
  participants : Option (List String)
deriving DecidableEq

def getN (p : List Seg) (l : Option String) (u : Option String) : Request :=
  ⟨Method.GET, p, l, u, none, none⟩

def postN (p : List Seg) (l : Option String) (u : Option String) : Request :=
  ⟨Method.POST, p, l, u, none, none⟩

def delN (p : List Seg) (l : Option String) (u : Option String) : Request :=
  ⟨Method.DELETE, p, l, u, none, none⟩

/-- Request for `self.client.post("/login", json={"username":u, "password":pw})`. -/
def loginJson (u pw : String) : Request :=
  ⟨Method.POST, [Seg.lit "/login"], none, none, some (Login.jsonBody u pw), none⟩

/-- Request for `self.client.post("/api/v3/auth/login", auth=(u, pw))`. -/
def loginBasic (u pw : String) : Request :=
  ⟨Method.POST, [Seg.lit "/api/v3/auth/login"], none, none, some (Login.basic u pw), none⟩

/-- Request for `self.client.post("/api/v3/group/create", ... initialUsers ...)`. -/
def groupCreate (u : String) (inits : List String) : Request :=
  ⟨Method.POST, [Seg.lit "/api/v3/group/create"], none, some u, none, some inits⟩

def Seg.str : Seg → String
  | Seg.lit s => s
  | Seg.var s => s

/-- Concrete URL string produced by the Python string concatenation. -/
def renderPath : List Seg → String
  | [] => ""
  | s :: rest => s.str ++ renderPath rest

/-- Variable (interpolated) segments of a request's URL, in order. -/
def varsOf (r : Request) : List String :=
  r.path.filterMap fun s =>
    match s with
    | Seg.var v => some v
    | Seg.lit _ => none

def hasVar (r : Request) : Bool :=
  r.path.any fun s =>
    match s with
    | Seg.var _ => true
    | Seg.lit _ => false

/-- Python exceptions the script can raise while assembling a request. -/
inductive Err
  | indexError
  | stopIteration
deriving DecidableEq

/-- Outcome of running one task: the HTTP requests issued, in order, and
the exception that aborted the task, if any. -/
structure ActionResult where
  requests : List Request
  error : Option Err
deriving DecidableEq

def done (rs : List Request) : ActionResult := ⟨rs, none⟩

/-- Sequencing: the requests `pre` have already been issued; if computing
`x` raises, the task aborts with only `pre` issued, otherwise the
continuation runs. -/
def chain (pre : List Request) (x : Except Err α) (f : α → ActionResult) : ActionResult :=
  match x with
  | Except.error e => ⟨pre, some e⟩
  | Except.ok a =>
      ⟨pre ++ (f a).requests, (f a).error⟩

/-- Model of Python `random.choice(l)`: raises `IndexError` on an empty
sequence, otherwise returns an element (the random draw is supplied as the
index `k`, reduced modulo the length). -/
def randomChoice (l : List α) (k : Nat) : Except Err α :=
  match l with
  | [] => Except.error Err.indexError
  | a :: as => Except.ok ((a :: as).get ⟨k % (a :: as).length, Nat.mod_lt k (Nat.succ_pos as.length)⟩)

/-- Model of Python `l[0]`: raises `IndexError` on an empty list. -/
def elem0 (l : List α) : Except Err α :=
  match l with
  | [] => Except.error Err.indexError
  | a :: _ => Except.ok a

/-- One entry of the `/api/v3/forum/categories` response. -/
structure Cat where
  categoryID : String
  title : String
deriving DecidableEq

/-- Model of `next(catData["categoryID"] for catData in cats if catData["title"] == t)`:
raises `StopIteration` when no category has the given title. -/
def findCategory (cats : List Cat) (t : String) : Except Err String :=
  match cats.find? (fun c => c.title == t) with
  | none => Except.error Err.stopIteration
  | some c => Except.ok c.categoryID

/-- One entry of the `posts` array of a forum response. -/
structure ForumPost where
  postID : Nat
  author : String
deriving DecidableEq

namespace TwarrtAPIUser

/-- Instance attributes of `TwarrtAPIUser` (the auth fields hold the value
of the `Authorization` header). -/
structure State where
  samAuth : String
  heidiAuth : String
  jamesAuth : String
  existingTwarrts : List Nat
deriving DecidableEq

/-- Class-level defaults: `"Bearer "` placeholder headers and an empty
twarrt cache. -/
def dflt : State := ⟨"Bearer ", "Bearer ", "Bearer ", []⟩

/-- Bootstrap: three basic-auth API logins, then a twarrt listing (as sam)
whose `twarrtID`s seed `existingTwarrts`. -/
def on_start (samTok heidiTok jamesTok : String) (twarrts : List Nat) :
    State × List Request :=
  (⟨"Bearer " ++ samTok, "Bearer " ++ heidiTok, "Bearer " ++ jamesTok, twarrts⟩,
   [loginBasic "sam" "password",
    loginBasic "heidi" "password",
    loginBasic "james" "password",
    getN [Seg.lit "/api/v3/twitarr"] none (some ("Bearer " ++ samTok))])

/-- Externally supplied values consumed by the tasks: `k` is the
`random.choice` draw, `newID` the `twarrtID` extracted from a create
response. -/
structure Ext where
  k : Nat
  newID : Nat
deriving DecidableEq

def twarrts (st : State) (_e : Ext) : ActionResult :=
  done [getN [Seg.lit "/api/v3/twitarr"] none (some st.samAuth)]

def twarrtDetail (st : State) (e : Ext) : ActionResult :=
  chain [] (randomChoice st.existingTwarrts e.k) fun t =>
    done [getN [Seg.lit "/api/v3/twitarr/", Seg.var (toString t)]
      (some "/api/v3/twitarr/:id") (some st.samAuth)]

def newTwarrt (st : State) (e : Ext) : ActionResult :=
  let m := toString e.newID
  done [postN [Seg.lit "/api/v3/twitarr/create"] none (some st.samAuth),
    postN [Seg.lit "/api/v3/twitarr/", Seg.var m, Seg.lit "/love"]
      (some "/api/v3/twitarr/:id/love") (some st.heidiAuth),
    postN [Seg.lit "/api/v3/twitarr/", Seg.var m, Seg.lit "/like"]
      (some "/api/v3/twitarr/:id/like") (some st.heidiAuth),
    postN [Seg.lit "/api/v3/twitarr/", Seg.var m, Seg.lit "/love"]
      (some "/api/v3/twitarr/:id/love") (some st.jamesAuth),
    postN [Seg.lit "/api/v3/twitarr/", Seg.var m, Seg.lit "/unreact"]
      (some "/api/v3/twitarr/:id/unreact") (some st.jamesAuth),
    postN [Seg.lit "/api/v3/twitarr/", Seg.var m, Seg.lit "/bookmark"]
      (some "/api/v3/twitarr/:id/bookmark") (some st.jamesAuth),
    postN [Seg.lit "/api/v3/twitarr/", Seg.var m, Seg.lit "/bookmark/remove"]
      (some "/api/v3/twitarr/:id/bookmark/remove") (some st.jamesAuth),
    postN [Seg.lit "/api/v3/twitarr/", Seg.var m, Seg.lit "/update"]
      (some "/api/v3/twitarr/:id/update") (some st.samAuth)]

def createDeleteTwarrt (st : State) (e : Ext) : ActionResult :=
  done [postN [Seg.lit "/api/v3/twitarr/create"] none (some st.samAuth),
    delN [Seg.lit "/api/v3/twitarr/", Seg.var (toString e.newID)]
      (some "/api/v3/twitarr/:id") (some st.samAuth)]

def replyToTwarrt (st : State) (e : Ext) : ActionResult :=
  chain [] (randomChoice st.existingTwarrts e.k) fun t =>
    done [postN [Seg.lit "/api/v3/twitarr/", Seg.var (toString t), Seg.lit "/reply"]
      (some "/api/v3/twitarr/:id/reply") (some st.heidiAuth)]

def reportTwarrt (st : State) (e : Ext) : ActionResult :=
  done [postN [Seg.lit "/api/v3/twitarr/create"] none (some st.samAuth),
    postN [Seg.lit "/api/v3/twitarr/", Seg.var (toString e.newID), Seg.lit "/report"]
      (some "/api/v3/twitarr/:id/report") (some st.heidiAuth)]

inductive Act
  | twarrts
  | twarrtDetail
  | newTwarrt
  | createDeleteTwarrt
  | replyToTwarrt
  | reportTwarrt
deriving DecidableEq

def run : Act → State → Ext → ActionResult
  | Act.twarrts, st, e => twarrts st e
  | Act.twarrtDetail, st, e => twarrtDetail st e
  | Act.newTwarrt, st, e => newTwarrt st e
  | Act.createDeleteTwarrt, st, e => createDeleteTwarrt st e
  | Act.replyToTwarrt, st, e => replyToTwarrt st e
  | Act.reportTwarrt, st, e => reportTwarrt st e

end TwarrtAPIUser

namespace TwarrtUser

/-- Instance attributes of `TwarrtUser`. -/
structure State where
  samAuth : String
  existingTwarrts : List Nat
deriving DecidableEq

/-- Class-level defaults. -/
def dflt : State := ⟨"Bearer ", []⟩

/-- Bootstrap: JSON web login plus basic-auth API login as sam, then a
twarrt listing whose `twarrtID`s seed `existingTwarrts`. -/
def on_start (samTok : String) (twarrts : List Nat) : State × List Request :=
  (⟨"Bearer " ++ samTok, twarrts⟩,
   [loginJson "sam" "password",
    loginBasic "sam" "password",
    getN [Seg.lit "/api/v3/twitarr"] none (some ("Bearer " ++ samTok))])

/-- Externally supplied values: `k` the `random.choice` draw, `author` the
`author.username` field of the twarrt detail response, `newID` the
`twarrtID` of a create response. -/
structure Ext where
  k : Nat
  author : String
  newID : Nat
deriving DecidableEq

def root (_st : State) (_e : Ext) : ActionResult :=
  done [getN [Seg.lit "/tweets"] none none]

def detail (st : State) (e : Ext) : ActionResult :=
  chain [] (randomChoice st.existingTwarrts e.k) fun t =>
    let s := toString t
    let pre := [getN [Seg.lit "/tweets/", Seg.var s] (some "/tweets/:id") none,
      getN [Seg.lit "/api/v3/twitarr/", Seg.var s] (some "/api/v3/twitarr/:id") (some st.samAuth)]
    if e.author != "sam" then
      done (pre ++ [postN [Seg.lit "/tweets/", Seg.var s, Seg.lit "/like"]
          (some "/tweets/:id/like") none,
        postN [Seg.lit "/tweets/", Seg.var s, Seg.lit "/unreact"]
          (some "/tweets/:id/unreact") none])
    else
      done pre

def mentionSelf (_st : State) (_e : Ext) : ActionResult :=
  done [getN [Seg.lit "/tweets?mentionSelf=true"] none none]

def replyGroup (st : State) (e : Ext) : ActionResult :=
  chain [] (randomChoice st.existingTwarrts e.k) fun t =>
    done [getN [Seg.lit "/tweets?replyGroup=", Seg.var (toString t)]
      (some "/tweets?replyGroup=:id") none]

def editTweet (st : State) (e : Ext) : ActionResult :=
  chain [] (randomChoice st.existingTwarrts e.k) fun t =>
    done [getN [Seg.lit "/tweets/edit/", Seg.var (toString t)]
      (some "/tweets/edit/:id") none]

def bookmarkTweet (st : State) (e : Ext) : ActionResult :=
  chain [] (randomChoice st.existingTwarrts e.k) fun t =>
    let s := toString t
    done [postN [Seg.lit "/tweets/", Seg.var s, Seg.lit "/bookmark"]
        (some "/tweets/:id/bookmark") none,
      delN [Seg.lit "/tweets/", Seg.var s, Seg.lit "/bookmark"]
        (some "/tweets/:id/bookmark") none]

def createEditDeleteTweet (st : State) (e : Ext) : ActionResult :=
  let n := toString e.newID
  done [postN [Seg.lit "/tweets/", Seg.lit "/create"] (some "/tweets/create") none,
    postN [Seg.lit "/api/v3/twitarr/create"] none (some st.samAuth),
    postN [Seg.lit "/tweets/edit/", Seg.var n] (some "/tweets/edit/:id") none,
    postN [Seg.lit "/tweets/reply/", Seg.var n] (some "/tweets/reply/:id") none,
    postN [Seg.lit "/tweets/", Seg.var n, Seg.lit "/delete"] (some "/tweets/:id/delete") none]

inductive Act
  | root
  | detail
  | mentionSelf
  | replyGroup
  | editTweet
  | bookmarkTweet
  | createEditDeleteTweet
deriving DecidableEq

def run : Act → State → Ext → ActionResult
  | Act.root, st, e => root st e
  | Act.detail, st, e => detail st e
  | Act.mentionSelf, st, e => mentionSelf st e
  | Act.replyGroup, st, e => replyGroup st e
  | Act.editTweet, st, e => editTweet st e
  | Act.bookmarkTweet, st, e => bookmarkTweet st e
  | Act.createEditDeleteTweet, st, e => createEditDeleteTweet st e

end TwarrtUser

namespace ForumAPIUser

/-- Instance attributes of `ForumAPIUser`. -/
structure State where
  samAuth : String
  heidiAuth : String
  jamesAuth : String
deriving DecidableEq

/-- Class-level defaults. -/
def dflt : State := ⟨"Bearer ", "Bearer ", "Bearer "⟩

/-- Bootstrap: three basic-auth API logins. -/
def on_start (samTok heidiTok jamesTok : String) : State × List Request :=
  (⟨"Bearer " ++ samTok, "Bearer " ++ heidiTok, "Bearer " ++ jamesTok⟩,
   [loginBasic "sam" "password",
    loginBasic "heidi" "password",
    loginBasic "james" "password"])

/-- Externally supplied response data: the category list, the
`forumThreads` array of a category response (as forum IDs), the `posts`
array of a forum response, the `random.choice` draw, and IDs extracted
from create responses. -/
structure Ext where
  cats : List Cat
  forumThreads : List String
  posts : List ForumPost
  k : Nat
  newForumID : String
  newPostID : Nat
deriving DecidableEq

def readForum (st : State) (e : Ext) : ActionResult :=
  chain [getN [Seg.lit "/api/v3/forum/categories"] none (some st.samAuth)]
    (findCategory e.cats "Egype") fun egypeCat =>
  chain [getN [Seg.lit "/api/v3/forum/categories/", Seg.var egypeCat]
      (some "/api/v3/forum/categories/:cat_id") (some st.samAuth)]
    (elem0 e.forumThreads) fun firstForum =>
  chain [getN [Seg.lit "/api/v3/forum/", Seg.var firstForum]
      (some "/api/v3/forum/:forum_id") (some st.samAuth)]
    (randomChoice ((e.posts.filter fun p => p.author != "sam").map ForumPost.postID) e.k)
    fun rp =>
  let s := toString rp
  done [postN [Seg.lit "/api/v3/forum/post/", Seg.var s, Seg.lit "/like"]
      (some "/api/v3/forum/post/:post_id/like") (some st.samAuth),
    postN [Seg.lit "/api/v3/forum/post/", Seg.var s, Seg.lit "/unreact"]
      (some "/api/v3/forum/post/:post_id/unreact") (some st.samAuth),
    postN [Seg.lit "/api/v3/forum/post/", Seg.var s, Seg.lit "/bookmark"]
      (some "/api/v3/forum/post/:post_id/bookmark") (some st.samAuth),
    postN [Seg.lit "/api/v3/forum/post/", Seg.var s, Seg.lit "/bookmark/remove"]
      (some "/api/v3/forum/post/:post_id/bookmark/remove") (some st.samAuth)]

def searchPosts (st : State) (_e : Ext) : ActionResult :=
  done [getN [Seg.lit "/api/v3/forum/post/search?search=hello"]
    (some "/api/v3/forum/post/search") (some st.samAuth)]

def ownForums (st : State) (_e : Ext) : ActionResult :=
  done [getN [Seg.lit "/api/v3/forum/owner"] (some "/api/v3/forum/owner") (some st.samAuth)]

def createForum (st : State) (e : Ext) : ActionResult :=
  chain [getN [Seg.lit "/api/v3/forum/categories"] none (some st.samAuth)]
    (findCategory e.cats "General") fun generalCat =>
  let pid := toString e.newPostID
  done [postN [Seg.lit "/api/v3/forum/categories/", Seg.var generalCat, Seg.lit "/create"]
      (some "/api/v3/forum/categories/:cat_id/create") (some st.samAuth),
    postN [Seg.lit "/api/v3/forum/", Seg.var e.newForumID, Seg.lit "/create"]
      (some "/api/v3/forum/:forum_id/create") (some st.samAuth),
    postN [Seg.lit "/api/v3/forum/", Seg.var e.newForumID, Seg.lit "/create"]
      (some "/api/v3/forum/:forum_id/create") (some st.samAuth),
    getN [Seg.lit "/api/v3/forum/post/", Seg.var pid]
      (some "/api/v3/forum/post/:post_id") (some st.samAuth),
    postN [Seg.lit "/api/v3/forum/post/", Seg.var pid, Seg.lit "/delete"]
      (some "/api/v3/forum/post/:post_id/delete") (some st.samAuth)]

def createRenameForum (st : State) (e : Ext) : ActionResult :=
  chain [getN [Seg.lit "/api/v3/forum/categories"] none (some st.samAuth)]
    (findCategory e.cats "General") fun generalCat =>
  let pid := toString e.newPostID
  done [postN [Seg.lit "/api/v3/forum/categories/", Seg.var generalCat, Seg.lit "/create"]
      (some "/api/v3/forum/categories/:cat_id/create") (some st.samAuth),
    postN [Seg.lit "/api/v3/forum/", Seg.var e.newForumID, Seg.lit "/create"]
      (some "/api/v3/forum/:forum_id/create") (some st.samAuth),
    postN [Seg.lit "/api/v3/forum/post/", Seg.var pid, Seg.lit "/update"]
      (some "/api/v3/forum/post/:post_id/update") (some st.samAuth),
    postN [Seg.lit "/api/v3/forum/", Seg.var e.newForumID,
        Seg.lit "/rename/A%20Locust%20Forum%20We%20Renamed"]
      (some "/api/v3/forum/:forum_id/rename/:new_name") (some st.samAuth)]

def favoriteForum (st : State) (e : Ext) : ActionResult :=
  chain [getN [Seg.lit "/api/v3/forum/categories"] none (some st.samAuth)]
    (findCategory e.cats "General") fun generalCat =>
  let pre := [getN [Seg.lit "/api/v3/forum/categories/", Seg.var generalCat]
    (some "/api/v3/forum/categories/:cat_id") (some st.samAuth)]
  match e.forumThreads with
  | [] => done pre
  | firstForum :: _ =>
      done (pre ++ [postN [Seg.lit "/api/v3/forum/", Seg.var firstForum, Seg.lit "/favorite"]
          (some "/api/v3/forum/:forum_id/favorite") (some st.samAuth),
        delN [Seg.lit "/api/v3/forum/", Seg.var firstForum, Seg.lit "/favorite"]
          (some "/api/v3/forum/:forum_id/favorite") (some st.samAuth)])

inductive Act
  | readForum
  | searchPosts
  | ownForums
  | createForum
  | createRenameForum
  | favoriteForum
deriving DecidableEq

def run : Act → State → Ext → ActionResult
  | Act.readForum, st, e => readForum st e
  | Act.searchPosts, st, e => searchPosts st e
  | Act.ownForums, st, e => ownForums st e
  | Act.createForum, st, e => createForum st e
  | Act.createRenameForum, st, e => createRenameForum st e
  | Act.favoriteForum, st, e => favoriteForum st e

end ForumAPIUser

namespace ForumWebUser

/-- Instance attributes of `ForumWebUser`.  The class-level default of
`forumIDs` in the source is the empty string (over which `random.choice`
raises `IndexError`, exactly as over an empty list); after bootstrap it is
the list of forum IDs, which is the type used here. -/
structure State where
  jamesAuth : String
  eventsCategory : String
  forumIDs : List String
deriving DecidableEq

/-- Class-level defaults (`forumIDs` modelled as the empty list, see
`State`). -/
def dflt : State := ⟨"Bearer ", "", []⟩

/-- Bootstrap: JSON web login and basic-auth API login as james, then the
category listing (from which the `Event Forums` category ID is extracted)
and that category's thread listing (from which the forum IDs are
extracted).  The two extracted values are parameters. -/
def on_start (jamesTok eventsCat : String) (forumIDs : List String) :
    State × List Request :=
  (⟨"Bearer " ++ jamesTok, eventsCat, forumIDs⟩,
   [loginJson "james" "password",
    loginBasic "james" "password",
    getN [Seg.lit "/api/v3/forum/categories"] none (some ("Bearer " ++ jamesTok)),
    getN [Seg.lit "/api/v3/forum/categories/", Seg.var eventsCat]
      (some "/api/v3/forum/categories/:cat_id") (some ("Bearer " ++ jamesTok))])

/-- Externally supplied values: the `random.choice` draw. -/
structure Ext where
  k : Nat
deriving DecidableEq

def viewCategories (_st : State) (_e : Ext) : ActionResult :=
  done [getN [Seg.lit "/forums"] none none]

def viewEventsForums (st : State) (_e : Ext) : ActionResult :=
  done [getN [Seg.lit "/forums/", Seg.var st.eventsCategory] (some "/forums/:category_id") none]

def viewEventsForumThread (st : State) (e : Ext) : ActionResult :=
  chain [] (randomChoice st.forumIDs e.k) fun randomEvent =>
    done [getN [Seg.lit "/forum/", Seg.var randomEvent] (some "/forum/:forum_id") none]

def searchForums (_st : State) (_e : Ext) : ActionResult :=
  done [getN [Seg.lit "/forum/search?search=locust&searchType=forums"] (some "/forum/search") none]

def searchForumPosts (_st : State) (_e : Ext) : ActionResult :=
  done [getN [Seg.lit "/forum/search?search=locust&searchType=posts"] (some "/forum/search") none]

def showFavorites (_st : State) (_e : Ext) : ActionResult :=
  done [getN [Seg.lit "/forum/favorites"] none none]

def showOwnForums (_st : State) (_e : Ext) : ActionResult :=
  done [getN [Seg.lit "/forum/owned"] none none]

def showMentions (_st : State) (_e : Ext) : ActionResult :=
  done [getN [Seg.lit "/forumpost/mentions"] none none]

def showFavoritePosts (_st : State) (_e : Ext) : ActionResult :=
  done [getN [Seg.lit "/forumpost/favorite"] none none]

def showOwnPosts (_st : State) (_e : Ext) : ActionResult :=
  done [getN [Seg.lit "/forumpost/owned"] none none]

def alsoSearchForumPosts (_st : State) (_e : Ext) : ActionResult :=
  done [getN [Seg.lit "/forumpost/search?search=hello"] (some "/forumpost/search") none]

inductive Act
  | viewCategories
  | viewEventsForums
  | viewEventsForumThread
  | searchForums
  | searchForumPosts
  | showFavorites
  | showOwnForums
  | showMentions
  | showFavoritePosts
  | showOwnPosts
  | alsoSearchForumPosts
deriving DecidableEq

def run : Act → State → Ext → ActionResult
  | Act.viewCategories, st, e => viewCategories st e
  | Act.viewEventsForums, st, e => viewEventsForums st e
  | Act.viewEventsForumThread, st, e => viewEventsForumThread st e
  | Act.searchForums, st, e => searchForums st e
  | Act.searchForumPosts, st, e => searchForumPosts st e
  | Act.showFavorites, st, e => showFavorites st e
  | Act.showOwnForums, st, e => showOwnForums st e
  | Act.showMentions, st, e => showMentions st e
  | Act.showFavoritePosts, st, e => showFavoritePosts st e
  | Act.showOwnPosts, st, e => showOwnPosts st e
  | Act.alsoSearchForumPosts, st, e => alsoSearchForumPosts st e

end ForumWebUser

namespace SeamailAPIUser

/-- Instance attributes of `SeamailAPIUser`. -/
structure State where
  samAuth : String
  samID : String
  heidiAuth : String
  heidiID : String
  jamesAuth : String
  jamesID : String
  groupID : String
deriving DecidableEq

/-- Class-level defaults. -/
def dflt : State := ⟨"Bearer ", "", "Bearer ", "", "Bearer ", "", ""⟩

/-- Bootstrap: three basic-auth API logins (capturing each `userID`), then
heidi creates a closed group with sam and james as `initialUsers`; its
`groupID` is cached. -/
def on_start (samTok samID heidiTok heidiID jamesTok jamesID groupID : String) :
    State × List Request :=
  (⟨"Bearer " ++ samTok, samID, "Bearer " ++ heidiTok, heidiID,
    "Bearer " ++ jamesTok, jamesID, groupID⟩,
   [loginBasic "sam" "password",
    loginBasic "heidi" "password",
    loginBasic "james" "password",
    groupCreate ("Bearer " ++ heidiTok) [samID, jamesID]])

/-- Externally supplied values: IDs extracted from create responses. -/
structure Ext where
  newGroupID : String
  postID : Nat
deriving DecidableEq

def joinedSeamails (st : State) (_e : Ext) : ActionResult :=
  done [getN [Seg.lit "/api/v3/group/joined?type=private"] none (some st.heidiAuth)]

def ownedSeamails (st : State) (_e : Ext) : ActionResult :=
  done [getN [Seg.lit "/api/v3/group/owner?type=private"] none (some st.heidiAuth)]

def createSeamail (st : State) (e : Ext) : ActionResult :=
  done [groupCreate st.heidiAuth [st.samID, st.jamesID],
    getN [Seg.lit "/api/v3/group/", Seg.var e.newGroupID]
      (some "/api/v3/group/:group_ID") (some st.samAuth),
    getN [Seg.lit "/api/v3/group/", Seg.var e.newGroupID]
      (some "/api/v3/group/:group_ID") (some st.jamesAuth)]

def postAndDeleteMsg (st : State) (e : Ext) : ActionResult :=
  done [postN [Seg.lit "/api/v3/group/", Seg.var st.groupID, Seg.lit "/post"]
      (some "/api/v3/group/:group_id/post") (some st.heidiAuth),
    delN [Seg.lit "/api/v3/group/post/", Seg.var (toString e.postID)]
      (some "/api/v3/group/post/:postID") (some st.heidiAuth)]

inductive Act
  | joinedSeamails
  | ownedSeamails
  | createSeamail
  | postAndDeleteMsg
deriving DecidableEq

def run : Act → State → Ext → ActionResult
  | Act.joinedSeamails, st, e => joinedSeamails st e
  | Act.ownedSeamails, st, e => ownedSeamails st e
  | Act.createSeamail, st, e => createSeamail st e
  | Act.postAndDeleteMsg, st, e => postAndDeleteMsg st e

end SeamailAPIUser

namespace SeamailWebUser

/-- Instance attributes of `SeamailWebUser`. -/
structure State where
  jamesAuth : String
  jamesID : String
  heidiAuth : String
  heidiID : String
deriving DecidableEq

/-- Class-level defaults. -/
def dflt : State := ⟨"Bearer ", "", "Bearer ", ""⟩

/-- Bootstrap: JSON web login as james, then basic-auth API logins as
james and heidi (capturing user IDs). -/
def on_start (jamesTok jamesID heidiTok heidiID : String) : State × List Request :=
  (⟨"Bearer " ++ jamesTok, jamesID, "Bearer " ++ heidiTok, heidiID⟩,
   [loginJson "james" "password",
    loginBasic "james" "password",
    loginBasic "heidi" "password"])

/-- Externally supplied values: the `groupID` of a create response. -/
structure Ext where
  newGroupID : String
deriving DecidableEq

def viewSeamailRoot (_st : State) (_e : Ext) : ActionResult :=
  done [getN [Seg.lit "/seamail"] none none]

def viewSeamailCreate (_st : State) (_e : Ext) : ActionResult :=
  done [getN [Seg.lit "/seamail/create"] none none]

def seamailUsernameSearch (_st : State) (_e : Ext) : ActionResult :=
  done [getN [Seg.lit "/seamail/usernames/search/adm"]
    (some "/seamail/usernames/search/:search_string") none]

def seamailCreate (_st : State) (_e : Ext) : ActionResult :=
  done [postN [Seg.lit "/seamail/create"] none none]

def seamailCreateAndView (st : State) (e : Ext) : ActionResult :=
  done [groupCreate st.jamesAuth [st.heidiID],
    getN [Seg.lit "/seamail/", Seg.var e.newGroupID] (some "/seamail/:seamail_id") none]

inductive Act
  | viewSeamailRoot
  | viewSeamailCreate
  | seamailUsernameSearch
  | seamailCreate
  | seamailCreateAndView
deriving DecidableEq

def run : Act → State → Ext → ActionResult
  | Act.viewSeamailRoot, st, e => viewSeamailRoot st e
  | Act.viewSeamailCreate, st, e => viewSeamailCreate st e
  | Act.seamailUsernameSearch, st, e => seamailUsernameSearch st e
  | Act.seamailCreate, st, e => seamailCreate st e
  | Act.seamailCreateAndView, st, e => seamailCreateAndView st e

end SeamailWebUser

namespace EventsAPIUser

/-- Instance attributes of `EventsAPIUser`. -/
structure State where
  jamesAuth : String
  jamesID : String
  heidiAuth : String
  heidiID : String
deriving DecidableEq

/-- Class-level defaults. -/
def dflt : State := ⟨"Bearer ", "", "Bearer ", ""⟩

/-- Bootstrap: basic-auth API logins as james, then heidi. -/
def on_start (jamesTok jamesID heidiTok heidiID : String) : State × List Request :=
  (⟨"Bearer " ++ jamesTok, jamesID, "Bearer " ++ heidiTok, heidiID⟩,
   [loginBasic "james" "password",
    loginBasic "heidi" "password"])

/-- Externally supplied values: the `eventID` list of the events response
and the two `random.choice` draws. -/
structure Ext where
  eventIDs : List String
  k1 : Nat
  k2 : Nat
deriving DecidableEq

def getEvents (st : State) (e : Ext) : ActionResult :=
  chain [getN [Seg.lit "/api/v3/events"] none (some st.heidiAuth)]
    (randomChoice e.eventIDs e.k1) fun ev =>
  chain [getN [Seg.lit "/api/v3/events/", Seg.var ev]
      (some "/api/v3/events/:event_id") (some st.heidiAuth)]
    (randomChoice e.eventIDs e.k2) fun favEvent =>
  done [postN [Seg.lit "/api/v3/events/", Seg.var favEvent, Seg.lit "/favorite"]
      (some "/api/v3/events/:event_id/favorite") (some st.heidiAuth),
    delN [Seg.lit "/api/v3/events/", Seg.var favEvent, Seg.lit "/favorite"]
      (some "/api/v3/events/:event_id/favorite") (some st.heidiAuth)]

def searchEvents (st : State) (_e : Ext) : ActionResult :=
  done [getN [Seg.lit "/api/v3/events?search=cruise"] none (some st.heidiAuth)]

def getFavoriteEvents (st : State) (_e : Ext) : ActionResult :=
  done [getN [Seg.lit "/api/v3/events/favorites"] none (some st.heidiAuth)]

inductive Act
  | getEvents
  | searchEvents
  | getFavoriteEvents
deriving DecidableEq

def run : Act → State → Ext → ActionResult
  | Act.getEvents, st, e => getEvents st e
  | Act.searchEvents, st, e => searchEvents st e
  | Act.getFavoriteEvents, st, e => getFavoriteEvents st e

end EventsAPIUser

namespace EventsWebUser

/-- Instance attributes of `EventsWebUser`. -/
structure State where
  jamesAuth : String
  jamesID : String
deriving DecidableEq

/-- Class-level defaults. -/
def dflt : State := ⟨"Bearer ", ""⟩

/-- Bootstrap: JSON web login as heidi, then basic-auth API login as
james. -/
def on_start (jamesTok jamesID : String) : State × List Request :=
  (⟨"Bearer " ++ jamesTok, jamesID⟩,
   [loginJson "heidi" "password",
    loginBasic "james" "password"])

/-- Tasks of this class consume no external values. -/
structure Ext where
  unused : Unit
deriving DecidableEq

def viewEvents (_st : State) (_e : Ext) : ActionResult :=
  done [getN [Seg.lit "/events"] none none]

def searchEvents (_st : State) (_e : Ext) : ActionResult :=
  done [getN [Seg.lit "/events?search=cruise"] none none]

inductive Act
  | viewEvents
  | searchEvents
deriving DecidableEq

def run : Act → State → Ext → ActionResult
  | Act.viewEvents, st, e => viewEvents st e
  | Act.searchEvents, st, e => searchEvents st e

end EventsWebUser

namespace BoardgamesAPIUser

/-- Instance attributes of `BoardgamesAPIUser`. -/
structure State where
  jamesAuth : String
  jamesID : String
deriving DecidableEq

/-- Class-level defaults. -/
def dflt : State := ⟨"Bearer ", ""⟩

/-- Bootstrap: basic-auth API login as james. -/
def on_start (jamesTok jamesID : String) : State × List Request :=
  (⟨"Bearer " ++ jamesTok, jamesID⟩,
   [loginBasic "james" "password"])

/-- Externally supplied values: the `gameID` list of the boardgames
response and the three `random.choice` draws. -/
structure Ext where
  gameIDs : List String
  k1 : Nat
  k2 : Nat
  k3 : Nat
deriving DecidableEq

def getBoardgames (st : State) (e : Ext) : ActionResult :=
  chain [getN [Seg.lit "/api/v3/boardgames"] none (some st.jamesAuth)]
    (randomChoice e.gameIDs e.k1) fun g1 =>
  chain [getN [Seg.lit "/api/v3/boardgames/", Seg.var g1]
      (some "/api/v3/boardgames/:game_id") (some st.jamesAuth)]
    (randomChoice e.gameIDs e.k2) fun g2 =>
  chain [getN [Seg.lit "/api/v3/boardgames/expansions/", Seg.var g2]
      (some "/api/v3/boardgames/expansions/:game_id") (some st.jamesAuth)]
    (randomChoice e.gameIDs e.k3) fun favGame =>
  done [postN [Seg.lit "/api/v3/boardgames/", Seg.var favGame, Seg.lit "/favorite"]
      (some "/api/v3/boardgames/:game_id/favorite") (some st.jamesAuth),
    delN [Seg.lit "/api/v3/boardgames/", Seg.var favGame, Seg.lit "/favorite"]
      (some "/api/v3/boardgames/:game_id/favorite") (some st.jamesAuth)]

def searchBoardgames (st : State) (_e : Ext) : ActionResult :=
  done [getN [Seg.lit "/api/v3/boardgames?search=catan"] none (some st.jamesAuth)]

def getFavoriteBoardgames (st : State) (_e : Ext) : ActionResult :=
  done [getN [Seg.lit "/api/v3/boardgames?favorite=true"] none (some st.jamesAuth)]

inductive Act
  | getBoardgames
  | searchBoardgames
  | getFavoriteBoardgames
deriving DecidableEq

def run : Act → State → Ext → ActionResult
  | Act.getBoardgames, st, e => getBoardgames st e
  | Act.searchBoardgames, st, e => searchBoardgames st e
  | Act.getFavoriteBoardgames, st, e => getFavoriteBoardgames st e

end BoardgamesAPIUser

namespace BoardgamesWebUser

/-- Instance attributes of `BoardgamesWebUser`. -/
structure State where
  heidiAuth : String
deriving DecidableEq

/-- Class-level defaults. -/
def dflt : State := ⟨"Bearer "⟩

/-- Bootstrap: JSON web login and basic-auth API login as heidi. -/
def on_start (heidiTok : String) : State × List Request :=
  (⟨"Bearer " ++ heidiTok⟩,
   [loginJson "heidi" "password",
    loginBasic "heidi" "password"])

/-- Externally supplied values: the `gameID` list of the boardgames
response and the `random.choice` draw. -/
structure Ext where
  gameIDs : List String
  k : Nat
deriving DecidableEq

def viewBoardgames (_st : State) (_e : Ext) : ActionResult :=
  done [getN [Seg.lit "/boardgames"] none none]

def searchGames (_st : State) (_e : Ext) : ActionResult :=
  done [getN [Seg.lit "/boardgames?search=star"] none none]

def viewMakeGameGroupPage (st : State) (e : Ext) : ActionResult :=
  chain [getN [Seg.lit "/api/v3/boardgames"] none (some st.heidiAuth)]
    (randomChoice e.gameIDs e.k) fun groupGame =>
  done [getN [Seg.lit "/boardgames/", Seg.var groupGame, Seg.lit "creategroup"]
    (some "/boardgames/:game_id/createGroup") none]

inductive Act
  | viewBoardgames
  | searchGames
  | viewMakeGameGroupPage
deriving DecidableEq

def run : Act → State → Ext → ActionResult
  | Act.viewBoardgames, st, e => viewBoardgames st e
  | Act.searchGames, st, e => searchGames st e
  | Act.viewMakeGameGroupPage, st, e => viewMakeGameGroupPage st e

end BoardgamesWebUser

namespace KaraokeAPIUser

/-- Instance attributes of `KaraokeAPIUser`. -/
structure State where
  heidiAuth : String
deriving DecidableEq

/-- Class-level defaults. -/
def dflt : State := ⟨"Bearer "⟩

/-- Bootstrap: basic-auth API login as heidi. -/
def on_start (heidiTok : String) : State × List Request :=
  (⟨"Bearer " ++ heidiTok⟩,
   [loginBasic "heidi" "password"])

/-- Tasks of this class consume no external values. -/
structure Ext where
  unused : Unit
deriving DecidableEq

def getSongs (_st : State) (_e : Ext) : ActionResult :=
  done [getN [Seg.lit "/api/v3/karaoke?search=radiohead"] none none]

def getLatest (_st : State) (_e : Ext) : ActionResult :=
  done [getN [Seg.lit "/api/v3/karaoke/latest"] none none]

def getFavoriteSongs (st : State) (_e : Ext) : ActionResult :=
  done [getN [Seg.lit "/api/v3/karaoke?favorite=true"] none (some st.heidiAuth)]

inductive Act
  | getSongs
  | getLatest
  | getFavoriteSongs
deriving DecidableEq

def run : Act → State → Ext → ActionResult
  | Act.getSongs, st, e => getSongs st e
  | Act.getLatest, st, e => getLatest st e
  | Act.getFavoriteSongs, st, e => getFavoriteSongs st e

end KaraokeAPIUser

namespace KaraokeWebUser

/-- `KaraokeWebUser` declares no instance attributes and no `on_start`. -/
structure State where
  unused : Unit
deriving DecidableEq

def dflt : State := ⟨()⟩

/-- Tasks of this class consume no external values. -/
structure Ext where
  unused : Unit
deriving DecidableEq

def viewSongsRootPage (_st : State) (_e : Ext) : ActionResult :=
  done [getN [Seg.lit "/karaoke"] none none]

def viewSongSearch (_st : State) (_e : Ext) : ActionResult :=
  done [getN [Seg.lit "/karaoke?search=prince"] none none]

inductive Act
  | viewSongsRootPage
  | viewSongSearch
deriving DecidableEq

def run : Act → State → Ext → ActionResult
  | Act.viewSongsRootPage, st, e => viewSongsRootPage st e
  | Act.viewSongSearch, st, e => viewSongSearch st e

end KaraokeWebUser

namespace AlertAPIUser

/-- Instance attributes of `AlertAPIUser`. -/
structure State where
  jamesAuth : String
  jamesID : String
deriving DecidableEq

/-- Class-level defaults. -/
def dflt : State := ⟨"Bearer ", ""⟩

/-- Bootstrap: basic-auth API login as james. -/
def on_start (jamesTok jamesID : String) : State × List Request :=
  (⟨"Bearer " ++ jamesTok, jamesID⟩,
   [loginBasic "james" "password"])

/-- Tasks of this class consume no external values. -/
structure Ext where
  unused : Unit
deriving DecidableEq

def getNotifications (st : State) (_e : Ext) : ActionResult :=
  done [getN [Seg.lit "/api/v3/notification/global"] none (some st.jamesAuth)]

def getAnnouncements (st : State) (_e : Ext) : ActionResult :=
  done [getN [Seg.lit "/api/v3/notification/announcements"] none (some st.jamesAuth)]

def getDailyThemes (st : State) (_e : Ext) : ActionResult :=
  done [getN [Seg.lit "/api/v3/notification/dailythemes"] none (some st.jamesAuth)]

inductive Act
  | getNotifications
  | getAnnouncements
  | getDailyThemes
deriving DecidableEq

def run : Act → State → Ext → ActionResult
  | Act.getNotifications, st, e => getNotifications st e
  | Act.getAnnouncements, st, e => getAnnouncements st e
  | Act.getDailyThemes, st, e => getDailyThemes st e

end AlertAPIUser

namespace ProfileAPIUser

/-- Instance attributes of `ProfileAPIUser`. -/
structure State where
  jamesAuth : String
  jamesID : String
deriving DecidableEq

/-- Class-level defaults. -/
def dflt : State := ⟨"Bearer ", ""⟩

/-- Bootstrap: basic-auth API login as james (capturing the user ID). -/
def on_start (jamesTok jamesID : String) : State × List Request :=
  (⟨"Bearer " ++ jamesTok, jamesID⟩,
   [loginBasic "james" "password"])

/-- Tasks of this class consume no external values. -/
structure Ext where
  unused : Unit
deriving DecidableEq

def getProfile (st : State) (_e : Ext) : ActionResult :=
  done [getN [Seg.lit "/api/v3/user/profile"] none (some st.jamesAuth)]

def whoami (st : State) (_e : Ext) : ActionResult :=
  done [getN [Seg.lit "/api/v3/user/whoami"] none (some st.jamesAuth)]

def findUser (st : State) (_e : Ext) : ActionResult :=
  done [getN [Seg.lit "/api/v3/users/find/heidi"] (some "/api/v3/users/:username") (some st.jamesAuth)]

def getHeader (st : State) (_e : Ext) : ActionResult :=
  done [getN [Seg.lit "/api/v3/users/", Seg.var st.jamesID]
    (some "/api/v3/users/:user_ID") (some st.jamesAuth)]

def userSearch (st : State) (_e : Ext) : ActionResult :=
  done [getN [Seg.lit "/api/v3/users/match/allnames/admin"]
    (some "/api/v3/users/match/allnames/:search_str") (some st.jamesAuth)]

inductive Act
  | getProfile
  | whoami
  | findUser
  | getHeader
  | userSearch
deriving DecidableEq

def run : Act → State → Ext → ActionResult
  | Act.getProfile, st, e => getProfile st e
  | Act.whoami, st, e => whoami st e
  | Act.findUser, st, e => findUser st e
  | Act.getHeader, st, e => getHeader st e
  | Act.userSearch, st, e => userSearch st e

end ProfileAPIUser

/-- Event on the websocket connection opened by `SeamailWebsocketUser`. -/
inductive WsEvent
  | connect (url : String) (cookie : String)
  | send (msg : String)
  | close
deriving DecidableEq

namespace SeamailWebsocketUser

/-- Instance attributes of `SeamailWebsocketUser`. -/
structure State where
  samAuth : String
  samID : String
  heidiAuth : String
  heidiID : String
  jamesAuth : String
  jamesID : String
  groupID : String
  cookie : String
deriving DecidableEq

/-- Class-level defaults. -/
def dflt : State := ⟨"Bearer ", "", "Bearer ", "", "Bearer ", "", "", ""⟩

/-- Bootstrap: three basic-auth API logins (capturing user IDs), heidi
creates a closed group with sam and james as `initialUsers` (its `groupID`
is cached), and finally a JSON web login as heidi whose response
`set-cookie` header (`setCookie`) is cached as `cookie` for the websocket
module. -/
def on_start (samTok samID heidiTok heidiID jamesTok jamesID groupID setCookie : String) :
    State × List Request :=
  (⟨"Bearer " ++ samTok, samID, "Bearer " ++ heidiTok, heidiID,
    "Bearer " ++ jamesTok, jamesID, groupID, setCookie⟩,
   [loginBasic "sam" "password",
    loginBasic "heidi" "password",
    loginBasic "james" "password",
    groupCreate ("Bearer " ++ heidiTok) [samID, jamesID],
    loginJson "heidi" "password"])

/-- The single task: open the group's websocket (`wsHost` is the netloc of
the client's base URL) passing the cached session cookie, send the probe
message `"test"`, and close. -/
def open_group_websocket (wsHost : String) (st : State) : List WsEvent :=
  [WsEvent.connect ("ws://" ++ wsHost ++ "/group/" ++ st.groupID ++ "/socket") st.cookie,
   WsEvent.send "test",
   WsEvent.close]

end SeamailWebsocketUser

/-- Insertion into an ordered dictionary: a binding for an existing key
replaces the value in place, a new key is appended. -/
def insertOrReplace : List (String × α) → String × α → List (String × α)
  | [], kv => [kv]
  | (k, v) :: rest, (k2, v2) =>
      if k = k2 then (k, v2) :: rest else (k, v) :: insertOrReplace rest (k2, v2)

/-- Model of the construction of a Python class dictionary from the
ordered method definitions of a class body: a later definition with the
same name replaces the earlier one (the entry keeps its original
position). -/
def pyClassDict (l : List (String × α)) : List (String × α) :=
  l.foldl (fun d kv => insertOrReplace d kv) []

namespace LoggedOutUser

/-- Bootstrap: JSON web login as sam. -/
def on_start : List Request := [loginJson "sam" "password"]

/-- The `@task` method definitions exactly as they appear, in source
order, with the request list each issues.  Note the two definitions named
`boardgamePage`. -/
def body : List (String × List Request) :=
  [("rootPage", [getN [Seg.lit "/"] none none]),
   ("eventsPage", [getN [Seg.lit "/events"] none none]),
   ("boardgamePage", [getN [Seg.lit "/boardgames"] none none]),
   ("boardgamePage", [getN [Seg.lit "/karaoke"] none none])]

/-- The effective task set, after Python class-dictionary construction. -/
def tasks : List (String × List Request) := pyClassDict body

end LoggedOutUser

/-- The metrics-label templates that the script attaches (via `name=`) to
requests whose URL embeds a variable identifier.  Each replaces the
variable segment with a `:`-placeholder token. -/
def varTemplates : List String :=
  ["/api/v3/twitarr/:id",
   "/api/v3/twitarr/:id/love",
   "/api/v3/twitarr/:id/like",
   "/api/v3/twitarr/:id/unreact",
   "/api/v3/twitarr/:id/bookmark",
   "/api/v3/twitarr/:id/bookmark/remove",
   "/api/v3/twitarr/:id/update",
   "/api/v3/twitarr/:id/reply",
   "/api/v3/twitarr/:id/report",
   "/tweets/:id",
   "/tweets/:id/like",
   "/tweets/:id/unreact",
   "/tweets?replyGroup=:id",
   "/tweets/edit/:id",
   "/tweets/:id/bookmark",
   "/tweets/reply/:id",
   "/tweets/:id/delete",
   "/api/v3/forum/categories/:cat_id",
   "/api/v3/forum/:forum_id",
   "/api/v3/forum/post/:post_id/like",
   "/api/v3/forum/post/:post_id/unreact",
   "/api/v3/forum/post/:post_id/bookmark",
   "/api/v3/forum/post/:post_id/bookmark/remove",
   "/api/v3/forum/categories/:cat_id/create",
   "/api/v3/forum/:forum_id/create",
   "/api/v3/forum/post/:post_id",
   "/api/v3/forum/post/:post_id/delete",
   "/api/v3/forum/post/:post_id/update",
   "/api/v3/forum/:forum_id/rename/:new_name",
   "/api/v3/forum/:forum_id/favorite",
   "/forums/:category_id",
   "/forum/:forum_id",
   "/api/v3/group/:group_ID",
   "/api/v3/group/:group_id/post",
   "/api/v3/group/post/:postID",
   "/seamail/:seamail_id",
   "/api/v3/events/:event_id",
   "/api/v3/events/:event_id/favorite",
   "/api/v3/boardgames/:game_id",
   "/api/v3/boardgames/expansions/:game_id",
   "/api/v3/boardgames/:game_id/favorite",
   "/boardgames/:game_id/createGroup",
   "/api/v3/users/:user_ID"]

/-- A request is correctly labeled when, if its URL embeds a variable
identifier, it carries one of the fixed placeholder templates as its
metrics label (so the label never depends on, nor contains, the concrete
ID). -/
def labeledOK (r : Request) : Bool :=
  !(hasVar r) ||
    (match r.label with
     | some s => varTemplates.contains s
     | none => false)

/-- A request respects the login discipline when any credential material
it carries is a JSON username/password body sent to `POST /login` or HTTP
basic auth sent to `POST /api/v3/auth/login`. -/
def loginOK (r : Request) : Bool :=
  match r.login with
  | none => true
  | some (Login.jsonBody _ _) =>
      r.method == Method.POST && r.path == [Seg.lit "/login"]
  | some (Login.basic _ _) =>
      r.method == Method.POST && r.path == [Seg.lit "/api/v3/auth/login"]

def goodReq (r : Request) : Bool := labeledOK r && loginOK r

/-- A scenario run places one state per actor slot; executing a task of an
actor applies the task function to that actor's own state only and mutates
nothing (no task in the script assigns an instance or class attribute). -/
def runTaskInWorld {σ τ ε : Type} {n : Nat} (run : τ → σ → ε → ActionResult)
    (w : Fin n → σ) (i : Fin n) (t : τ) (e : ε) : (Fin n → σ) × ActionResult :=
  (w, run t (w i) e)

/-- Bootstrap of the actor in slot `i`: its freshly built state replaces
only that slot. -/
def applyBoot {σ : Type} {n : Nat} (w : Fin n → σ) (i : Fin n) (s : σ) : Fin n → σ :=
  Function.update w i s

/-- Modelled from the spec: the inter-action wait is supplied by the
external load-testing framework's `between(min, max)` (`wait_time` in the
source), which draws a uniformly random duration bounded by the configured
minimum and maximum; the draw is modelled by a parameter `r` in `[0, 1]`
scaled onto `[lo, hi]`. -/
def betweenSample (lo hi r : Rat) : Rat := lo + r * (hi - lo)

/-- The `wait_time = between(lo, hi)` bounds configured by each user
class, in source order. -/
def allWaitBounds : List (String × Rat × Rat) :=
  [("LoggedOutUser", 1, 5),
   ("TwarrtAPIUser", 1, 5),
   ("TwarrtUser", 1, 5),
   ("ForumAPIUser", 1, 5),
   ("ForumWebUser", 1, 5),
   ("SeamailAPIUser", 1, 5),
   ("SeamailWebUser", 1, 5),
   ("EventsAPIUser", 1, 5),
   ("EventsWebUser", 1, 5),
   ("BoardgamesAPIUser", 1, 5),
   ("BoardgamesWebUser", 1, 5),
   ("KaraokeAPIUser", 1, 5),
   ("KaraokeWebUser", 1, 5),
   ("AlertAPIUser", 1, 5),
   ("ProfileAPIUser", 1, 5),
   ("SeamailWebsocketUser", 1, 5)]

theorem all_chain {α : Type} (p : Request → Bool) (pre : List Request) (x : Except Err α)
    (f : α → ActionResult) (h1 : pre.all p = true)
    (h2 : ∀ a, ((f a).requests.all p) = true) :
    ((chain pre x f).requests.all p) = true := by
  cases x with
  | error e => simpa [chain] using h1
  | ok a =>
      simp only [chain, List.all_append, Bool.and_eq_true]
      exact ⟨h1, h2 a⟩

theorem all_split {l : List Request} (h : l.all goodReq = true) :
    l.all labeledOK = true ∧ l.all loginOK = true := by
  simp only [List.all_eq_true, goodReq, Bool.and_eq_true] at h ⊢
  exact ⟨fun r hr => (h r hr).1, fun r hr => (h r hr).2⟩

theorem twarrtAPIUser_tasks_good (t : TwarrtAPIUser.Act) (st : TwarrtAPIUser.State)
    (e : TwarrtAPIUser.Ext) : ((TwarrtAPIUser.run t st e).requests.all goodReq) = true := by
  cases t with
  | twarrtDetail =>
      apply all_chain
      · rfl
      · intro a; rfl
  | replyToTwarrt =>
      apply all_chain
      · rfl
      · intro a; rfl
  | twarrts => rfl
  | newTwarrt => rfl
  | createDeleteTwarrt => rfl
  | reportTwarrt => rfl

theorem twarrtAPIUser_onstart_good (a b c : String) (l : List Nat) :
    ((TwarrtAPIUser.on_start a b c l).2.all goodReq) = true := rfl

theorem twarrtUser_tasks_good (t : TwarrtUser.Act) (st : TwarrtUser.State)
    (e : TwarrtUser.Ext) : ((TwarrtUser.run t st e).requests.all goodReq) = true := by
  cases t with
  | detail =>
      apply all_chain
      · rfl
      · intro a
        by_cases h : (e.author != "sam") = true
        · simp only [TwarrtUser.detail, if_pos h]; rfl
        · simp only [TwarrtUser.detail, if_neg h]; rfl
  | replyGroup =>
      apply all_chain
      · rfl
      · intro a; rfl
  | editTweet =>
      apply all_chain
      · rfl
      · intro a; rfl
  | bookmarkTweet =>
      apply all_chain
      · rfl
      · intro a; rfl
  | root => rfl
  | mentionSelf => rfl
  | createEditDeleteTweet => rfl

theorem twarrtUser_onstart_good (a : String) (l : List Nat) :
    ((TwarrtUser.on_start a l).2.all goodReq) = true := rfl

theorem forumAPIUser_tasks_good (t : ForumAPIUser.Act) (st : ForumAPIUser.State)
    (e : ForumAPIUser.Ext) : ((ForumAPIUser.run t st e).requests.all goodReq) = true := by
  cases t with
  | readForum =>
      apply all_chain
      · rfl
      · intro a
        apply all_chain
        · rfl
        · intro b
          apply all_chain
          · rfl
          · intro c; rfl
  | createForum =>
      apply all_chain
      · rfl
      · intro a; rfl
  | createRenameForum =>
      apply all_chain
      · rfl
      · intro a; rfl
  | favoriteForum =>
      apply all_chain
      · rfl
      · intro a
        obtain ⟨cats, fts, posts, k, nf, np⟩ := e
        cases fts with
        | nil => rfl
        | cons f rest => rfl
  | searchPosts => rfl
  | ownForums => rfl

theorem forumAPIUser_onstart_good (a b c : String) :
    ((ForumAPIUser.on_start a b c).2.all goodReq) = true := rfl

theorem forumWebUser_tasks_good (t : ForumWebUser.Act) (st : ForumWebUser.State)
    (e : ForumWebUser.Ext) : ((ForumWebUser.run t st e).requests.all goodReq) = true := by
  cases t with
  | viewEventsForumThread =>
      apply all_chain
      · rfl
      · intro a; rfl
  | viewCategories => rfl
  | viewEventsForums => rfl
  | searchForums => rfl
  | searchForumPosts => rfl
  | showFavorites => rfl
  | showOwnForums => rfl
  | showMentions => rfl
  | showFavoritePosts => rfl
  | showOwnPosts => rfl
  | alsoSearchForumPosts => rfl

theorem forumWebUser_onstart_good (a b : String) (l : List String) :
    ((ForumWebUser.on_start a b l).2.all goodReq) = true := rfl

theorem seamailAPIUser_tasks_good (t : SeamailAPIUser.Act) (st : SeamailAPIUser.State)
    (e : SeamailAPIUser.Ext) : ((SeamailAPIUser.run t st e).requests.all goodReq) = true := by
  cases t <;> rfl

theorem seamailAPIUser_onstart_good (a b c d f g h : String) :
    ((SeamailAPIUser.on_start a b c d f g h).2.all goodReq) = true := rfl

theorem seamailWebUser_tasks_good (t : SeamailWebUser.Act) (st : SeamailWebUser.State)
    (e : SeamailWebUser.Ext) : ((SeamailWebUser.run t st e).requests.all goodReq) = true := by
  cases t <;> rfl

theorem seamailWebUser_onstart_good (a b c d : String) :
    ((SeamailWebUser.on_start a b c d).2.all goodReq) = true := rfl

theorem eventsAPIUser_tasks_good (t : EventsAPIUser.Act) (st : EventsAPIUser.State)
    (e : EventsAPIUser.Ext) : ((EventsAPIUser.run t st e).requests.all goodReq) = true := by
  cases t with
  | getEvents =>
      apply all_chain
      · rfl
      · intro a
        apply all_chain
        · rfl
        · intro b; rfl
  | searchEvents => rfl
  | getFavoriteEvents => rfl

theorem eventsAPIUser_onstart_good (a b c d : String) :
    ((EventsAPIUser.on_start a b c d).2.all goodReq) = true := rfl

theorem eventsWebUser_tasks_good (t : EventsWebUser.Act) (st : EventsWebUser.State)
    (e : EventsWebUser.Ext) : ((EventsWebUser.run t st e).requests.all goodReq) = true := by
  cases t <;> rfl

theorem eventsWebUser_onstart_good (a b : String) :
    ((EventsWebUser.on_start a b).2.all goodReq) = true := rfl

theorem boardgamesAPIUser_tasks_good (t : BoardgamesAPIUser.Act) (st : BoardgamesAPIUser.State)
    (e : BoardgamesAPIUser.Ext) : ((BoardgamesAPIUser.run t st e).requests.all goodReq) = true := by
  cases t with
  | getBoardgames =>
      apply all_chain
      · rfl
      · intro a
        apply all_chain
        · rfl
        · intro b
          apply all_chain
          · rfl
          · intro c; rfl
  | searchBoardgames => rfl
  | getFavoriteBoardgames => rfl

theorem boardgamesAPIUser_onstart_good (a b : String) :
    ((BoardgamesAPIUser.on_start a b).2.all goodReq) = true := rfl

theorem boardgamesWebUser_tasks_good (t : BoardgamesWebUser.Act) (st : BoardgamesWebUser.State)
    (e : BoardgamesWebUser.Ext) : ((BoardgamesWebUser.run t st e).requests.all goodReq) = true := by
  cases t with
  | viewMakeGameGroupPage =>
      apply all_chain
      · rfl
      · intro a; rfl
  | viewBoardgames => rfl
  | searchGames => rfl

theorem boardgamesWebUser_onstart_good (a : String) :
    ((BoardgamesWebUser.on_start a).2.all goodReq) = true := rfl

theorem karaokeAPIUser_tasks_good (t : KaraokeAPIUser.Act) (st : KaraokeAPIUser.State)
    (e : KaraokeAPIUser.Ext) : ((KaraokeAPIUser.run t st e).requests.all goodReq) = true := by
  cases t <;> rfl

theorem karaokeAPIUser_onstart_good (a : String) :
    ((KaraokeAPIUser.on_start a).2.all goodReq) = true := rfl

theorem karaokeWebUser_tasks_good (t : KaraokeWebUser.Act) (st : KaraokeWebUser.State)
    (e : KaraokeWebUser.Ext) : ((KaraokeWebUser.run t st e).requests.all goodReq) = true := by
  cases t <;> rfl

theorem alertAPIUser_tasks_good (t : AlertAPIUser.Act) (st : AlertAPIUser.State)
    (e : AlertAPIUser.Ext) : ((AlertAPIUser.run t st e).requests.all goodReq) = true := by
  cases t <;> rfl

theorem alertAPIUser_onstart_good (a b : String) :
    ((AlertAPIUser.on_start a b).2.all goodReq) = true := rfl

theorem profileAPIUser_tasks_good (t : ProfileAPIUser.Act) (st : ProfileAPIUser.State)
    (e : ProfileAPIUser.Ext) : ((ProfileAPIUser.run t st e).requests.all goodReq) = true := by
  cases t <;> rfl

theorem profileAPIUser_onstart_good (a b : String) :
    ((ProfileAPIUser.on_start a b).2.all goodReq) = true := rfl

theorem seamailWebsocketUser_onstart_good (a b c d f g h i : String) :
    ((SeamailWebsocketUser.on_start a b c d f g h i).2.all goodReq) = true := rfl

theorem loggedOutUser_tasks_good :
    (LoggedOutUser.tasks.all fun pr => pr.2.all goodReq) = true := rfl

theorem loggedOutUser_onstart_good : (LoggedOutUser.on_start.all goodReq) = true := rfl

/-- C1 counterexample: `TwarrtAPIUser.twarrtDetail` run with the empty
`existingTwarrts` cache (the class default state) does not both issue zero
HTTP calls and raise no error — `random.choice` on the empty cache raises
`IndexError`, so the error field is not `none`. -/
theorem emptyCache_counterexample :
    ¬ ((TwarrtAPIUser.run TwarrtAPIUser.Act.twarrtDetail TwarrtAPIUser.dflt ⟨0, 0⟩).requests = []
      ∧ (TwarrtAPIUser.run TwarrtAPIUser.Act.twarrtDetail TwarrtAPIUser.dflt ⟨0, 0⟩).error = none) := by
  decide

/-- C1 (amended): when the dependency cache is empty, the actions that
select from it with `random.choice` (`TwarrtAPIUser.twarrtDetail` and
`replyToTwarrt`, `TwarrtUser.detail`, `replyGroup`, `editTweet`,
`bookmarkTweet`, `ForumWebUser.viewEventsForumThread`) issue zero HTTP
calls but raise an `IndexError` instead of skipping gracefully; only
`ForumAPIUser.favoriteForum` skips its dependent favorite/unfavorite calls
without error when `forumThreads` is empty, and it still issues its two
listing calls. -/
theorem emptyCache_behavior :
    (∀ st e, st.existingTwarrts = [] →
      TwarrtAPIUser.run TwarrtAPIUser.Act.twarrtDetail st e = ⟨[], some Err.indexError⟩)
  ∧ (∀ st e, st.existingTwarrts = [] →
      TwarrtAPIUser.run TwarrtAPIUser.Act.replyToTwarrt st e = ⟨[], some Err.indexError⟩)
  ∧ (∀ st e, st.existingTwarrts = [] →
      TwarrtUser.run TwarrtUser.Act.detail st e = ⟨[], some Err.indexError⟩)
  ∧ (∀ st e, st.existingTwarrts = [] →
      TwarrtUser.run TwarrtUser.Act.replyGroup st e = ⟨[], some Err.indexError⟩)
  ∧ (∀ st e, st.existingTwarrts = [] →
      TwarrtUser.run TwarrtUser.Act.editTweet st e = ⟨[], some Err.indexError⟩)
  ∧ (∀ st e, st.existingTwarrts = [] →
      TwarrtUser.run TwarrtUser.Act.bookmarkTweet st e = ⟨[], some Err.indexError⟩)
  ∧ (∀ st e, st.forumIDs = [] →
      ForumWebUser.run ForumWebUser.Act.viewEventsForumThread st e = ⟨[], some Err.indexError⟩)
  ∧ (∀ st (e : ForumAPIUser.Ext) g, e.forumThreads = [] →
      findCategory e.cats "General" = Except.ok g →
      ForumAPIUser.run ForumAPIUser.Act.favoriteForum st e =
        ⟨[getN [Seg.lit "/api/v3/forum/categories"] none (some st.samAuth),
          getN [Seg.lit "/api/v3/forum/categories/", Seg.var g]
            (some "/api/v3/forum/categories/:cat_id") (some st.samAuth)], none⟩) := by
  refine ⟨?_, ?_, ?_, ?_, ?_, ?_, ?_, ?_⟩
  · intro st e h
    simp [TwarrtAPIUser.run, TwarrtAPIUser.twarrtDetail, chain, randomChoice, h]
  · intro st e h
    simp [TwarrtAPIUser.run, TwarrtAPIUser.replyToTwarrt, chain, randomChoice, h]
  · intro st e h
    simp [TwarrtUser.run, TwarrtUser.detail, chain, randomChoice, h]
  · intro st e h
    simp [TwarrtUser.run, TwarrtUser.replyGroup, chain, randomChoice, h]
  · intro st e h
    simp [TwarrtUser.run, TwarrtUser.editTweet, chain, randomChoice, h]
  · intro st e h
    simp [TwarrtUser.run, TwarrtUser.bookmarkTweet, chain, randomChoice, h]
  · intro st e h
    simp [ForumWebUser.run, ForumWebUser.viewEventsForumThread, chain, randomChoice, h]
  · intro st e g hft hg
    simp [ForumAPIUser.run, ForumAPIUser.favoriteForum, chain, hg, hft, done]

/-- C1 witness: the amended statement applied at concrete inputs — the
default (empty-cache) `TwarrtAPIUser` state, and a `favoriteForum`
environment with a `General` category and no forum threads. -/
theorem emptyCache_behavior_witness :
    TwarrtAPIUser.run TwarrtAPIUser.Act.twarrtDetail TwarrtAPIUser.dflt ⟨0, 0⟩
        = ⟨[], some Err.indexError⟩
    ∧ ForumAPIUser.run ForumAPIUser.Act.favoriteForum ForumAPIUser.dflt
        ⟨[⟨"cat1", "General"⟩], [], [], 0, "", 0⟩ =
      ⟨[getN [Seg.lit "/api/v3/forum/categories"] none (some "Bearer "),
        getN [Seg.lit "/api/v3/forum/categories/", Seg.var "cat1"]
          (some "/api/v3/forum/categories/:cat_id") (some "Bearer ")], none⟩ :=
  ⟨emptyCache_behavior.1 TwarrtAPIUser.dflt ⟨0, 0⟩ rfl,
   emptyCache_behavior.2.2.2.2.2.2.2 ForumAPIUser.dflt
     ⟨[⟨"cat1", "General"⟩], [], [], 0, "", 0⟩ "cat1" rfl rfl⟩

/-- C2: `SeamailWebsocketUser` acquires a session cookie via `POST /login`
with a JSON username/password body (the final bootstrap request), stores
the response's `set-cookie` value, opens its websocket connection passing
exactly that stored cookie, sends the single probe message `"test"`, and
closes immediately. -/
theorem websocket_probe_flow
    (samTok samID heidiTok heidiID jamesTok jamesID gID ck host : String) :
    ((SeamailWebsocketUser.on_start samTok samID heidiTok heidiID jamesTok jamesID gID ck).2.getLast?
        = some (loginJson "heidi" "password"))
    ∧ (loginJson "heidi" "password").method = Method.POST
    ∧ renderPath (loginJson "heidi" "password").path = "/login"
    ∧ ((SeamailWebsocketUser.on_start samTok samID heidiTok heidiID jamesTok jamesID gID ck).1.cookie
        = ck)
    ∧ SeamailWebsocketUser.open_group_websocket host
        (SeamailWebsocketUser.on_start samTok samID heidiTok heidiID jamesTok jamesID gID ck).1
      = [WsEvent.connect ("ws://" ++ host ++ "/group/" ++ gID ++ "/socket") ck,
         WsEvent.send "test",
         WsEvent.close] :=
  ⟨rfl, rfl, rfl, rfl, rfl⟩

/-- C4: in each create-then-use action, the identifier interpolated into
the follow-up URLs is exactly the identifier extracted from the creation
response (`Ext` fields hold response-extracted values); and in the seamail
scenario, heidi creates the group with `initialUsers` `[samID, jamesID]`
and both sam and james then fetch `/api/v3/group/` + the returned
`groupID` with their own auth headers. -/
theorem creation_id_roundtrip :
    (∀ st e, (TwarrtAPIUser.run TwarrtAPIUser.Act.createDeleteTwarrt st e).requests.map varsOf
        = [[], [toString e.newID]])
  ∧ (∀ st (e : ForumAPIUser.Ext) g, findCategory e.cats "General" = Except.ok g →
      (ForumAPIUser.run ForumAPIUser.Act.createForum st e).requests.map varsOf
        = [[], [g], [e.newForumID], [e.newForumID], [toString e.newPostID], [toString e.newPostID]])
  ∧ (∀ st e, SeamailAPIUser.run SeamailAPIUser.Act.createSeamail st e =
      ⟨[groupCreate st.heidiAuth [st.samID, st.jamesID],
        getN [Seg.lit "/api/v3/group/", Seg.var e.newGroupID]
          (some "/api/v3/group/:group_ID") (some st.samAuth),
        getN [Seg.lit "/api/v3/group/", Seg.var e.newGroupID]
          (some "/api/v3/group/:group_ID") (some st.jamesAuth)], none⟩) := by
  refine ⟨fun st e => rfl, ?_, fun st e => rfl⟩
  intro st e g hg
  simp [ForumAPIUser.run, ForumAPIUser.createForum, chain, hg, done, varsOf, getN, postN, delN]

/-- C4 witness: the round-trip statement applied at a concrete
`createForum` environment containing a `General` category. -/
theorem creation_id_roundtrip_witness :
    (ForumAPIUser.run ForumAPIUser.Act.createForum ForumAPIUser.dflt
        ⟨[⟨"cat9", "General"⟩], [], [], 0, "forum7", 42⟩).requests.map varsOf
      = [[], ["cat9"], ["forum7"], ["forum7"], ["42"], ["42"]] :=
  creation_id_roundtrip.2.1 ForumAPIUser.dflt ⟨[⟨"cat9", "General"⟩], [], [], 0, "forum7", 42⟩
    "cat9" rfl

/-- C8: the `LoggedOutUser` class body defines `boardgamePage` twice; the
second definition (requesting `/karaoke`) replaces the first (requesting
`/boardgames`) in the class dictionary, so the effective task set is
exactly `GET /`, `GET /events`, `GET /karaoke`, and no task requests
`/boardgames`. -/
theorem loggedOutUser_tasks_shadowed :
    LoggedOutUser.tasks =
      [("rootPage", [getN [Seg.lit "/"] none none]),
       ("eventsPage", [getN [Seg.lit "/events"] none none]),
       ("boardgamePage", [getN [Seg.lit "/karaoke"] none none])]
    ∧ (LoggedOutUser.tasks.all fun pr =>
        pr.2.all fun r => renderPath r.path != "/boardgames") = true := by
  exact ⟨by decide, by decide⟩

/-- C3: for every class and every task, every HTTP request whose URL path
embeds a variable resource identifier carries a metrics label drawn from
the fixed list `varTemplates` of placeholder templates — each of which
contains a `:` placeholder character and, being a fixed string, never
contains the concrete ID.  (The single websocket task of
`SeamailWebsocketUser` goes through the websocket module, not the HTTP
client, and issues no HTTP-client call.) -/
theorem varPath_requests_labeled :
    ((varTemplates.all fun s => s.data.contains ':') = true)
  ∧ ((LoggedOutUser.tasks.all fun pr => pr.2.all labeledOK) = true)
  ∧ (∀ t st e, ((TwarrtAPIUser.run t st e).requests.all labeledOK) = true)
  ∧ (∀ t st e, ((TwarrtUser.run t st e).requests.all labeledOK) = true)
  ∧ (∀ t st e, ((ForumAPIUser.run t st e).requests.all labeledOK) = true)
  ∧ (∀ t st e, ((ForumWebUser.run t st e).requests.all labeledOK) = true)
  ∧ (∀ t st e, ((SeamailAPIUser.run t st e).requests.all labeledOK) = true)
  ∧ (∀ t st e, ((SeamailWebUser.run t st e).requests.all labeledOK) = true)
  ∧ (∀ t st e, ((EventsAPIUser.run t st e).requests.all labeledOK) = true)
  ∧ (∀ t st e, ((EventsWebUser.run t st e).requests.all labeledOK) = true)
  ∧ (∀ t st e, ((BoardgamesAPIUser.run t st e).requests.all labeledOK) = true)
  ∧ (∀ t st e, ((BoardgamesWebUser.run t st e).requests.all labeledOK) = true)
  ∧ (∀ t st e, ((KaraokeAPIUser.run t st e).requests.all labeledOK) = true)
  ∧ (∀ t st e, ((KaraokeWebUser.run t st e).requests.all labeledOK) = true)
  ∧ (∀ t st e, ((AlertAPIUser.run t st e).requests.all labeledOK) = true)
  ∧ (∀ t st e, ((ProfileAPIUser.run t st e).requests.all labeledOK) = true) := by
  refine ⟨by decide, by decide, ?_, ?_, ?_, ?_, ?_, ?_, ?_, ?_, ?_, ?_, ?_, ?_, ?_, ?_⟩
  · exact fun t st e => (all_split (twarrtAPIUser_tasks_good t st e)).1
  · exact fun t st e => (all_split (twarrtUser_tasks_good t st e)).1
  · exact fun t st e => (all_split (forumAPIUser_tasks_good t st e)).1
  · exact fun t st e => (all_split (forumWebUser_tasks_good t st e)).1
  · exact fun t st e => (all_split (seamailAPIUser_tasks_good t st e)).1
  · exact fun t st e => (all_split (seamailWebUser_tasks_good t st e)).1
  · exact fun t st e => (all_split (eventsAPIUser_tasks_good t st e)).1
  · exact fun t st e => (all_split (eventsWebUser_tasks_good t st e)).1
  · exact fun t st e => (all_split (boardgamesAPIUser_tasks_good t st e)).1
  · exact fun t st e => (all_split (boardgamesWebUser_tasks_good t st e)).1
  · exact fun t st e => (all_split (karaokeAPIUser_tasks_good t st e)).1
  · exact fun t st e => (all_split (karaokeWebUser_tasks_good t st e)).1
  · exact fun t st e => (all_split (alertAPIUser_tasks_good t st e)).1
  · exact fun t st e => (all_split (profileAPIUser_tasks_good t st e)).1

/-- C6: every credential-bearing request anywhere in the scripts — in
every class's bootstrap and every task — is either a JSON
username/password body sent to `POST /login` or HTTP basic auth sent to
`POST /api/v3/auth/login`; no other login path or credential mechanism
occurs (`KaraokeWebUser` has no bootstrap and no credential-bearing
request at all). -/
theorem login_paths_only :
    ((LoggedOutUser.on_start.all loginOK) = true)
  ∧ ((LoggedOutUser.tasks.all fun pr => pr.2.all loginOK) = true)
  ∧ (∀ a b c l, ((TwarrtAPIUser.on_start a b c l).2.all loginOK) = true)
  ∧ (∀ t st e, ((TwarrtAPIUser.run t st e).requests.all loginOK) = true)
  ∧ (∀ a l, ((TwarrtUser.on_start a l).2.all loginOK) = true)
  ∧ (∀ t st e, ((TwarrtUser.run t st e).requests.all loginOK) = true)
  ∧ (∀ a b c, ((ForumAPIUser.on_start a b c).2.all loginOK) = true)
  ∧ (∀ t st e, ((ForumAPIUser.run t st e).requests.all loginOK) = true)
  ∧ (∀ a b l, ((ForumWebUser.on_start a b l).2.all loginOK) = true)
  ∧ (∀ t st e, ((ForumWebUser.run t st e).requests.all loginOK) = true)
  ∧ (∀ a b c d f g h, ((SeamailAPIUser.on_start a b c d f g h).2.all loginOK) = true)
  ∧ (∀ t st e, ((SeamailAPIUser.run t st e).requests.all loginOK) = true)
  ∧ (∀ a b c d, ((SeamailWebUser.on_start a b c d).2.all loginOK) = true)
  ∧ (∀ t st e, ((SeamailWebUser.run t st e).requests.all loginOK) = true)
  ∧ (∀ a b c d, ((EventsAPIUser.on_start a b c d).2.all loginOK) = true)
  ∧ (∀ t st e, ((EventsAPIUser.run t st e).requests.all loginOK) = true)
  ∧ (∀ a b, ((EventsWebUser.on_start a b).2.all loginOK) = true)
  ∧ (∀ t st e, ((EventsWebUser.run t st e).requests.all loginOK) = true)
  ∧ (∀ a b, ((BoardgamesAPIUser.on_start a b).2.all loginOK) = true)
  ∧ (∀ t st e, ((BoardgamesAPIUser.run t st e).requests.all loginOK) = true)
  ∧ (∀ a, ((BoardgamesWebUser.on_start a).2.all loginOK) = true)
  ∧ (∀ t st e, ((BoardgamesWebUser.run t st e).requests.all loginOK) = true)
  ∧ (∀ a, ((KaraokeAPIUser.on_start a).2.all loginOK) = true)
  ∧ (∀ t st e, ((KaraokeAPIUser.run t st e).requests.all loginOK) = true)
  ∧ (∀ t st e, ((KaraokeWebUser.run t st e).requests.all loginOK) = true)
  ∧ (∀ a b, ((AlertAPIUser.on_start a b).2.all loginOK) = true)
  ∧ (∀ t st e, ((AlertAPIUser.run t st e).requests.all loginOK) = true)
  ∧ (∀ a b, ((ProfileAPIUser.on_start a b).2.all loginOK) = true)
  ∧ (∀ t st e, ((ProfileAPIUser.run t st e).requests.all loginOK) = true)
  ∧ (∀ a b c d f g h i, ((SeamailWebsocketUser.on_start a b c d f g h i).2.all loginOK) = true) := by
  refine ⟨by decide, by decide, ?_, ?_, ?_, ?_, ?_, ?_, ?_, ?_, ?_, ?_, ?_, ?_, ?_, ?_, ?_, ?_,
    ?_, ?_, ?_, ?_, ?_, ?_, ?_, ?_, ?_, ?_, ?_, ?_⟩
  · exact fun a b c l => (all_split (twarrtAPIUser_onstart_good a b c l)).2
  · exact fun t st e => (all_split (twarrtAPIUser_tasks_good t st e)).2
  · exact fun a l => (all_split (twarrtUser_onstart_good a l)).2
  · exact fun t st e => (all_split (twarrtUser_tasks_good t st e)).2
  · exact fun a b c => (all_split (forumAPIUser_onstart_good a b c)).2
  · exact fun t st e => (all_split (forumAPIUser_tasks_good t st e)).2
  · exact fun a b l => (all_split (forumWebUser_onstart_good a b l)).2
  · exact fun t st e => (all_split (forumWebUser_tasks_good t st e)).2
  · exact fun a b c d f g h => (all_split (seamailAPIUser_onstart_good a b c d f g h)).2
  · exact fun t st e => (all_split (seamailAPIUser_tasks_good t st e)).2
  · exact fun a b c d => (all_split (seamailWebUser_onstart_good a b c d)).2
  · exact fun t st e => (all_split (seamailWebUser_tasks_good t st e)).2
  · exact fun a b c d => (all_split (eventsAPIUser_onstart_good a b c d)).2
  · exact fun t st e => (all_split (eventsAPIUser_tasks_good t st e)).2
  · exact fun a b => (all_split (eventsWebUser_onstart_good a b)).2
  · exact fun t st e => (all_split (eventsWebUser_tasks_good t st e)).2
  · exact fun a b => (all_split (boardgamesAPIUser_onstart_good a b)).2
  · exact fun t st e => (all_split (boardgamesAPIUser_tasks_good t st e)).2
  · exact fun a => (all_split (boardgamesWebUser_onstart_good a)).2
  · exact fun t st e => (all_split (boardgamesWebUser_tasks_good t st e)).2
  · exact fun a => (all_split (karaokeAPIUser_onstart_good a)).2
  · exact fun t st e => (all_split (karaokeAPIUser_tasks_good t st e)).2
  · exact fun t st e => (all_split (karaokeWebUser_tasks_good t st e)).2
  · exact fun a b => (all_split (alertAPIUser_onstart_good a b)).2
  · exact fun t st e => (all_split (alertAPIUser_tasks_good t st e)).2
  · exact fun a b => (all_split (profileAPIUser_onstart_good a b)).2
  · exact fun t st e => (all_split (profileAPIUser_tasks_good t st e)).2
  · exact fun a b c d f g h i => (all_split (seamailWebsocketUser_onstart_good a b c d f g h i)).2

/-- C5: actions read and write only the state of the actor instance
executing them.  Tasks in the script assign no instance or class
attribute, so each is embedded as a pure function of its own actor's
state; lifting a task into a multi-actor world (`runTaskInWorld`) leaves
every actor's state — including the executing actor's — unchanged, and a
bootstrap (`applyBoot` of the state `on_start` builds) replaces only the
executing actor's slot.  (`LoggedOutUser`'s tasks read no state at all,
and `SeamailWebsocketUser`'s websocket task is likewise a pure function
`open_group_websocket` of its own state.) -/
theorem actor_state_isolation :
    ((∀ (n : Nat) (w : Fin n → TwarrtAPIUser.State) (i : Fin n) t e,
        (runTaskInWorld TwarrtAPIUser.run w i t e).1 = w)
      ∧ (∀ (n : Nat) (w : Fin n → TwarrtUser.State) (i : Fin n) t e,
        (runTaskInWorld TwarrtUser.run w i t e).1 = w)
      ∧ (∀ (n : Nat) (w : Fin n → ForumAPIUser.State) (i : Fin n) t e,
        (runTaskInWorld ForumAPIUser.run w i t e).1 = w)
      ∧ (∀ (n : Nat) (w : Fin n → ForumWebUser.State) (i : Fin n) t e,
        (runTaskInWorld ForumWebUser.run w i t e).1 = w)
      ∧ (∀ (n : Nat) (w : Fin n → SeamailAPIUser.State) (i : Fin n) t e,
        (runTaskInWorld SeamailAPIUser.run w i t e).1 = w)
      ∧ (∀ (n : Nat) (w : Fin n → SeamailWebUser.State) (i : Fin n) t e,
        (runTaskInWorld SeamailWebUser.run w i t e).1 = w)
      ∧ (∀ (n : Nat) (w : Fin n → EventsAPIUser.State) (i : Fin n) t e,
        (runTaskInWorld EventsAPIUser.run w i t e).1 = w)
      ∧ (∀ (n : Nat) (w : Fin n → EventsWebUser.State) (i : Fin n) t e,
        (runTaskInWorld EventsWebUser.run w i t e).1 = w)
      ∧ (∀ (n : Nat) (w : Fin n → BoardgamesAPIUser.State) (i : Fin n) t e,
        (runTaskInWorld BoardgamesAPIUser.run w i t e).1 = w)
      ∧ (∀ (n : Nat) (w : Fin n → BoardgamesWebUser.State) (i : Fin n) t e,
        (runTaskInWorld BoardgamesWebUser.run w i t e).1 = w)
      ∧ (∀ (n : Nat) (w : Fin n → KaraokeAPIUser.State) (i : Fin n) t e,
        (runTaskInWorld KaraokeAPIUser.run w i t e).1 = w)
      ∧ (∀ (n : Nat) (w : Fin n → KaraokeWebUser.State) (i : Fin n) t e,
        (runTaskInWorld KaraokeWebUser.run w i t e).1 = w)
      ∧ (∀ (n : Nat) (w : Fin n → AlertAPIUser.State) (i : Fin n) t e,
        (runTaskInWorld AlertAPIUser.run w i t e).1 = w)
      ∧ (∀ (n : Nat) (w : Fin n → ProfileAPIUser.State) (i : Fin n) t e,
        (runTaskInWorld ProfileAPIUser.run w i t e).1 = w))
  ∧ ((∀ (n : Nat) (w : Fin n → TwarrtAPIUser.State) (i j : Fin n) a b c l, j ≠ i →
        applyBoot w i (TwarrtAPIUser.on_start a b c l).1 j = w j)
      ∧ (∀ (n : Nat) (w : Fin n → TwarrtUser.State) (i j : Fin n) a l, j ≠ i →
        applyBoot w i (TwarrtUser.on_start a l).1 j = w j)
      ∧ (∀ (n : Nat) (w : Fin n → ForumAPIUser.State) (i j : Fin n) a b c, j ≠ i →
        applyBoot w i (ForumAPIUser.on_start a b c).1 j = w j)
      ∧ (∀ (n : Nat) (w : Fin n → ForumWebUser.State) (i j : Fin n) a b l, j ≠ i →
        applyBoot w i (ForumWebUser.on_start a b l).1 j = w j)
      ∧ (∀ (n : Nat) (w : Fin n → SeamailAPIUser.State) (i j : Fin n) a b c d f g h, j ≠ i →
        applyBoot w i (SeamailAPIUser.on_start a b c d f g h).1 j = w j)
      ∧ (∀ (n : Nat) (w : Fin n → SeamailWebUser.State) (i j : Fin n) a b c d, j ≠ i →
        applyBoot w i (SeamailWebUser.on_start a b c d).1 j = w j)
      ∧ (∀ (n : Nat) (w : Fin n → EventsAPIUser.State) (i j : Fin n) a b c d, j ≠ i →
        applyBoot w i (EventsAPIUser.on_start a b c d).1 j = w j)
      ∧ (∀ (n : Nat) (w : Fin n → EventsWebUser.State) (i j : Fin n) a b, j ≠ i →
        applyBoot w i (EventsWebUser.on_start a b).1 j = w j)
      ∧ (∀ (n : Nat) (w : Fin n → BoardgamesAPIUser.State) (i j : Fin n) a b, j ≠ i →
        applyBoot w i (BoardgamesAPIUser.on_start a b).1 j = w j)
      ∧ (∀ (n : Nat) (w : Fin n → BoardgamesWebUser.State) (i j : Fin n) a, j ≠ i →
        applyBoot w i (BoardgamesWebUser.on_start a).1 j = w j)
      ∧ (∀ (n : Nat) (w : Fin n → KaraokeAPIUser.State) (i j : Fin n) a, j ≠ i →
        applyBoot w i (KaraokeAPIUser.on_start a).1 j = w j)
      ∧ (∀ (n : Nat) (w : Fin n → AlertAPIUser.State) (i j : Fin n) a b, j ≠ i →
        applyBoot w i (AlertAPIUser.on_start a b).1 j = w j)
      ∧ (∀ (n : Nat) (w : Fin n → ProfileAPIUser.State) (i j : Fin n) a b, j ≠ i →
        applyBoot w i (ProfileAPIUser.on_start a b).1 j = w j)
      ∧ (∀ (n : Nat) (w : Fin n → SeamailWebsocketUser.State) (i j : Fin n) a b c d f g h k,
        j ≠ i → applyBoot w i (SeamailWebsocketUser.on_start a b c d f g h k).1 j = w j)) := by
  refine ⟨⟨?_, ?_, ?_, ?_, ?_, ?_, ?_, ?_, ?_, ?_, ?_, ?_, ?_, ?_⟩,
    ⟨?_, ?_, ?_, ?_, ?_, ?_, ?_, ?_, ?_, ?_, ?_, ?_, ?_, ?_⟩⟩ <;>
  first
    | exact fun n w i t e => rfl
    | exact fun n w i j a b c l h => Function.update_noteq h _ _
    | exact fun n w i j a l h => Function.update_noteq h _ _
    | exact fun n w i j a b c h => Function.update_noteq h _ _
    | exact fun n w i j a b l h => Function.update_noteq h _ _
    | exact fun n w i j a b c d f g h hne => Function.update_noteq hne _ _
    | exact fun n w i j a b c d h => Function.update_noteq h _ _
    | exact fun n w i j a b h => Function.update_noteq h _ _
    | exact fun n w i j a h => Function.update_noteq h _ _
    | exact fun n w i j a b c d f g h k hne => Function.update_noteq hne _ _

/-- C5 witness: bootstrapping actor 0 of a two-actor `TwarrtAPIUser` world
leaves actor 1's state untouched. -/
theorem actor_state_isolation_witness :
    applyBoot (fun _ => TwarrtAPIUser.dflt) (0 : Fin 2)
        (TwarrtAPIUser.on_start "a" "b" "c" []).1 (1 : Fin 2)
      = TwarrtAPIUser.dflt :=
  actor_state_isolation.2.1 2 (fun _ => TwarrtAPIUser.dflt) 0 1 "a" "b" "c" [] (by decide)

/-- C7: every one of the 16 user classes configures its inter-action wait
as `between(1, 5)`, and (with `between` modelled from the spec as a
uniform draw on the configured interval) every sampled wait `v` satisfies
`min ≤ v ≤ max`. -/
theorem wait_time_bounds :
    (∀ entry ∈ allWaitBounds, entry.2.1 = 1 ∧ entry.2.2 = 5)
  ∧ (∀ lo hi r : Rat, lo ≤ hi → 0 ≤ r → r ≤ 1 →
      lo ≤ betweenSample lo hi r ∧ betweenSample lo hi r ≤ hi) := by
  constructor
  · decide
  · intro lo hi r h1 h2 h3
    constructor
    · have hr : 0 ≤ r * (hi - lo) := mul_nonneg h2 (by linarith)
      simp only [betweenSample]
      linarith
    · have hr : r * (hi - lo) ≤ 1 * (hi - lo) :=
        mul_le_mul_of_nonneg_right h3 (by linarith)
      simp only [betweenSample]
      linarith

/-- C7 witness: the bounds statement applied to the `LoggedOutUser` entry
and to the concrete draw `r = 1/2` on `[1, 5]`. -/
theorem wait_time_bounds_witness :
    (("LoggedOutUser", ((1 : Rat), (5 : Rat))).2.1 = 1
      ∧ ("LoggedOutUser", ((1 : Rat), (5 : Rat))).2.2 = 5)
    ∧ ((1 : Rat) ≤ betweenSample 1 5 (1 / 2) ∧ betweenSample 1 5 (1 / 2) ≤ 5) :=
  ⟨wait_time_bounds.1 ("LoggedOutUser", (1, 5)) (by decide),
   wait_time_bounds.2 1 5 (1 / 2) (by norm_num) (by norm_num) (by norm_num)⟩

/-- C9: for every game ID `g` chosen in
`BoardgamesWebUser.viewMakeGameGroupPage`, the request path issued is the
concatenation `"/boardgames/" ++ g ++ "creategroup"` with no separator
before `"creategroup"`, and in particular differs from
`"/boardgames/" ++ g ++ "/creategroup"`. -/
theorem makeGameGroup_path_concat (st : BoardgamesWebUser.State) (ids : List String)
    (k : Nat) (g : String) (h : randomChoice ids k = Except.ok g) :
    (BoardgamesWebUser.run BoardgamesWebUser.Act.viewMakeGameGroupPage st ⟨ids, k⟩).requests.map
        (fun r => renderPath r.path)
      = ["/api/v3/boardgames", "/boardgames/" ++ g ++ "creategroup"]
    ∧ "/boardgames/" ++ g ++ "creategroup" ≠ "/boardgames/" ++ g ++ "/creategroup" := by
  constructor
  · simp [BoardgamesWebUser.run, BoardgamesWebUser.viewMakeGameGroupPage, chain, h, done,
      renderPath, Seg.str, getN, String.append_assoc, String.append_empty]
  · intro heq
    have hlen := congrArg String.length heq
    simp only [String.length_append] at hlen
    have h1 : ("creategroup" : String).length = 11 := rfl
    have h2 : ("/creategroup" : String).length = 12 := rfl
    rw [h1, h2] at hlen
    omega

/-- C9 witness: the path statement applied at the concrete game ID
`"42"`. -/
theorem makeGameGroup_path_concat_witness :
    (BoardgamesWebUser.run BoardgamesWebUser.Act.viewMakeGameGroupPage BoardgamesWebUser.dflt
        ⟨["42"], 0⟩).requests.map (fun r => renderPath r.path)
      = ["/api/v3/boardgames", "/boardgames/" ++ "42" ++ "creategroup"]
    ∧ "/boardgames/" ++ "42" ++ "creategroup" ≠ "/boardgames/" ++ "42" ++ "/creategroup" :=
  makeGameGroup_path_concat BoardgamesWebUser.dflt ["42"] 0 "42" rfl

/-- C10: every execution of `TwarrtUser.createEditDeleteTweet` issues as
its first request a POST whose path is the concatenation of `"/tweets/"`
and `"/create"`, i.e. `"/tweets//create"` with a double slash. -/
theorem createTweet_double_slash (st : TwarrtUser.State) (e : TwarrtUser.Ext) :
    (TwarrtUser.run TwarrtUser.Act.createEditDeleteTweet st e).requests.head? =
      some (postN [Seg.lit "/tweets/", Seg.lit "/create"] (some "/tweets/create") none)
    ∧ renderPath [Seg.lit "/tweets/", Seg.lit "/create"] = "/tweets//create" :=
  ⟨rfl, by decide⟩
